import Mathlib

/-!
Verification of the "room" token-trading bot.

Shallow embedding of the repository's JavaScript sources:
* `Portfolio` (src/portfolio.js, `src/unnamed/part_001`): the Position Ledger,
  a JSON object mapping token-address keys to `{ totalAmount, purchases }`,
  plus the deferred-sell mark set (deferredSell.json).
* `Trader` (`src/unnamed/part_003`): `buyToken`, the sell queue worker
  `_processSellQueue`, and `_performSell`.
* `ContractMonitor` (src/src/monitor.js): `processTradeEvent` deduplication
  and callback dispatch.
* `SqliteCandidateStore` (src/src/candidatesSqlite.js): candidate rows.
* `TokenScanner` (`src/unnamed/part_002`, two variants): `handleCandidate`.
* `TokenBot` (`src/unnamed/part_000`): `onNewTokenDetected`,
  `onExternalBuyDetected`, `multiplierToCurveIndex`.

JavaScript objects are modelled as association lists over `String` keys with
exact (case-sensitive) key matching, as in the source; promise-returning
external calls (RPC, fetch) are modelled by explicit environment values
describing their outcomes.
-/

namespace Room

/-- JavaScript `String.prototype.toLowerCase` restricted to the characters
that appear in addresses and error messages (per-character lowercasing). -/
def jsToLower (s : String) : String := ⟨s.data.map Char.toLower⟩

/-- Prefix test on character lists (helper for substring containment). -/
def charsPrefix : List Char → List Char → Bool
  | [], _ => true
  | _ :: _, [] => false
  | a :: as, b :: bs => a = b && charsPrefix as bs

/-- Containment of `needle` as a contiguous sublist of the second list. -/
def charsInfix (needle : List Char) : List Char → Bool
  | [] => needle.isEmpty
  | b :: bs => charsPrefix needle (b :: bs) || charsInfix needle bs

/-- JavaScript `String.prototype.includes hay.includes needle`. -/
def strContains (hay needle : String) : Bool := charsInfix needle.data hay.data

/-! ### Association lists with JavaScript object-key semantics -/

/-- `obj[k] = v`: replace the value at the first occurrence of key `k`,
or append the binding at the end when the key is absent (JS objects keep
insertion order). -/
def setKey {α : Type} : List (String × α) → String → α → List (String × α)
  | [], k, v => [(k, v)]
  | (k', v') :: rest, k, v =>
    if k' = k then (k, v) :: rest else (k', v') :: setKey rest k v

/-- `delete obj[k]`: remove the first occurrence of key `k`. -/
def eraseKey {α : Type} : List (String × α) → String → List (String × α)
  | [], _ => []
  | (k', v') :: rest, k => if k' = k then rest else (k', v') :: eraseKey rest k

/-- `obj[k]`: value at the first occurrence of key `k`, if any. -/
def lookupKey {α : Type} : List (String × α) → String → Option α
  | [], _ => none
  | (k', v') :: rest, k => if k' = k then some v' else lookupKey rest k

/-! ### Position Ledger (Portfolio, src/portfolio.js) -/

/-- One purchase record pushed by `Portfolio.addToken`. -/
structure Purchase where
  amount : Int
  txHash : String
  timestamp : Int
deriving DecidableEq, Repr

/-- One portfolio entry: `{ totalAmount, purchases }`. -/
structure PosEntry where
  totalAmount : Int
  purchases : List Purchase
deriving DecidableEq, Repr

/-- The persisted portfolio object: token address (exact string key) →
entry. -/
abbrev Portfolio := List (String × PosEntry)

/-- `Portfolio.addToken`: create the entry (`totalAmount: 0, purchases: []`)
when the key is absent, then `totalAmount += amount` and push the purchase. -/
def Portfolio.addToken (p : Portfolio) (tokenAddress : String) (amount : Int)
    (txHash : String) (timestamp : Int) : Portfolio :=
  let e := (lookupKey p tokenAddress).getD ⟨0, []⟩
  setKey p tokenAddress
    ⟨e.totalAmount + amount, e.purchases ++ [⟨amount, txHash, timestamp⟩]⟩

/-- `Portfolio.removeToken`: `false` without mutation when the token is not
held or `totalAmount < amount`; otherwise subtract, deleting the entry when
the new total is `0`. Returns (new portfolio, return value). -/
def Portfolio.removeToken (p : Portfolio) (tokenAddress : String)
    (amount : Int) : Portfolio × Bool :=
  match lookupKey p tokenAddress with
  | none => (p, false)
  | some e =>
    if e.totalAmount < amount then (p, false)
    else if e.totalAmount - amount = 0 then (eraseKey p tokenAddress, true)
    else (setKey p tokenAddress ⟨e.totalAmount - amount, e.purchases⟩, true)

/-- `Portfolio.getTokenAmount`: `portfolio[tokenAddress]?.totalAmount || 0`. -/
def Portfolio.getTokenAmount (p : Portfolio) (tokenAddress : String) : Int :=
  ((lookupKey p tokenAddress).map PosEntry.totalAmount).getD 0

/-- Deferred-sell mark set (deferredSell.json): `data[tokenAddress] = true`. -/
def markDeferredSell (d : List String) (tokenAddress : String) : List String :=
  if d.contains tokenAddress then d else d ++ [tokenAddress]

/-- `Portfolio.clearDeferredSell`: `delete data[tokenAddress]`.  Defined in
the source but never invoked by any caller in the repository. -/
def clearDeferredSell (d : List String) (tokenAddress : String) :
    List String := d.erase tokenAddress

/-- `Portfolio.isDeferredSell`. -/
def isDeferredSell (d : List String) (tokenAddress : String) : Bool :=
  d.contains tokenAddress

/-! ### Trade Executor (Trader, `src/unnamed/part_003`)

Blockchain calls are modelled by environment values giving the outcome the
provider would deliver: an exception (with ethers error `code` and message),
or a confirmed receipt `(txHash, blockNumber, gasUsed, status)`. -/

/-- Structured trade result (the source returns object literals with these
fields; auxiliary gas-price log fields are omitted). -/
structure TradeResult where
  success : Bool
  txHash : Option String
  blockNumber : Option Int
  gasUsed : Option String
  error : Option String
deriving DecidableEq, Repr

/-- A failed trade result carrying only an error message. -/
def failResult (msg : String) : TradeResult :=
  ⟨false, none, none, none, some msg⟩

/-- Outcome of the provider interaction inside `buyToken`'s try block. -/
inductive BuyEnv where
  /-- `encodeFunctionData` threw (caught at the inner try, line 47). -/
  | encodeError (msg : String)
  /-- some await in the try block threw (`getFeeData`, `sendTransaction`
  or `tx.wait`), caught by the outer catch with an ethers error code. -/
  | sendException (code : Option String) (msg : String)
  /-- the transaction was submitted and a receipt arrived. -/
  | confirmed (txHash : String) (blockNumber : Int) (gasUsed : Int)
      (status : Int)
deriving DecidableEq, Repr

/-- Result of `Trader.buyToken`: trade result, new portfolio, and the value
of `isTrading` after the call returns. -/
structure BuyOutcome where
  result : TradeResult
  portfolio : Portfolio
  isTrading : Bool
deriving DecidableEq, Repr

/-- `Trader.buyToken` (part_003 lines 20-168).  The busy check and the
`isTrading = true` assignment are synchronous (no await between them); the
`finally` clause resets the flag on every exit from the try block.  On a
status-1 receipt the position is credited via `Portfolio.addToken` with the
original-case `tokenAddress` argument. -/
def buyToken (isTrading : Bool) (p : Portfolio) (tokenAddress : String)
    (amount : Int) (env : BuyEnv) (now : Int) : BuyOutcome :=
  if isTrading then
    ⟨failResult "交易正在进行中，请稍后", p, isTrading⟩
  else
    match env with
    | .encodeError msg =>
      ⟨failResult ("交易数据编码失败: " ++ msg), p, false⟩
    | .sendException code msg =>
      let m :=
        if code = some "INSUFFICIENT_FUNDS" then "余额不足"
        else if code = some "UNPREDICTABLE_GAS_LIMIT" then
          "无法预测 Gas 限制，可能是合约调用失败"
        else msg
      ⟨failResult m, p, false⟩
    | .confirmed tx bn gas status =>
      if status = 1 then
        ⟨⟨true, some tx, some bn, some (toString gas), none⟩,
          Portfolio.addToken p tokenAddress amount tx now, false⟩
      else
        ⟨failResult "交易被回滚", p, false⟩

/-- Outcome of `contract.sellShares.estimateGas`. -/
inductive EstimateOutcome where
  | ok (gas : Int)
  | err (msg : String)
deriving DecidableEq, Repr

/-- Outcome of the `sellShares` submission / confirmation. -/
inductive SendOutcome where
  | threw (code : Option String) (msg : String)
  | confirmed (txHash : String) (blockNumber : Int) (gasUsed : Int)
      (status : Int)
deriving DecidableEq, Repr

/-- Environment for one `_performSell` run. -/
structure SellEnv where
  estimate : EstimateOutcome
  send : SendOutcome
deriving DecidableEq, Repr

/-- Result of `Trader._performSell`: trade result, new portfolio, new
deferred-sell set, and whether the `sellShares` submission was reached. -/
structure SellOutcome where
  result : TradeResult
  portfolio : Portfolio
  deferred : List String
  submitted : Bool
deriving DecidableEq, Repr

/-- Submission phase of `_performSell` (part_003 lines 283-339): send the
transaction, classify a thrown revert reason ("cannot sell the last share" →
soft success with deferred mark, "insufficient shares" → hard failure,
otherwise rethrow to the outer catch which maps `INSUFFICIENT_FUNDS`), and
on a status-1 receipt debit the ledger via `Portfolio.removeToken`. -/
def performSellSend (p : Portfolio) (d : List String) (tokenAddress : String)
    (amount : Int) (send : SendOutcome) : SellOutcome :=
  match send with
  | .confirmed tx bn gas status =>
    if status = 1 then
      ⟨⟨true, some tx, some bn, some (toString gas), none⟩,
        (Portfolio.removeToken p tokenAddress amount).1, d, true⟩
    else
      ⟨failResult "交易被回滚", p, d, true⟩
  | .threw code msg =>
    let m := jsToLower msg
    if strContains m "cannot sell the last share" then
      ⟨⟨true, none, none, none, none⟩, p, markDeferredSell d tokenAddress,
        true⟩
    else if strContains m "insufficient shares" then
      ⟨failResult "Insufficient shares", p, d, true⟩
    else
      let outer :=
        if code = some "INSUFFICIENT_FUNDS" then "余额不足支付 Gas 费" else msg
      ⟨failResult outer, p, d, true⟩

/-- `Trader._performSell` (part_003 lines 232-350): holding check before
anything else; gas-estimation failure inspected for "cannot sell the last
share" (soft success, mark deferred, no submission) and "insufficient
shares" (hard failure), with any other estimation error falling back to the
fixed gas limit 300000 and proceeding to submission. -/
def performSell (p : Portfolio) (d : List String) (tokenAddress : String)
    (amount : Int) (env : SellEnv) : SellOutcome :=
  let holdingAmount := Portfolio.getTokenAmount p tokenAddress
  if holdingAmount < amount then
    ⟨failResult "持仓不足", p, d, false⟩
  else
    match env.estimate with
    | .ok _ => performSellSend p d tokenAddress amount env.send
    | .err msg =>
      let m := jsToLower msg
      if strContains m "cannot sell the last share" then
        ⟨⟨true, none, none, none, none⟩, p, markDeferredSell d tokenAddress,
          false⟩
      else if strContains m "insufficient shares" then
        ⟨failResult "Insufficient shares", p, d, false⟩
      else
        performSellSend p d tokenAddress amount env.send

/-! ### Sell-queue worker (`Trader._processSellQueue`, part_003 lines 179-230)

JavaScript semantics note: a `continue` inside `try { ... } finally { ... }`
executes the `finally` block before the next loop iteration.  The loop body's
`finally` (lines 221-225) is therefore executed on *every* path out of the
body: after a performed sell, after the "no holding" resolve, and after the
busy-deferral re-enqueue — in each case it assigns `this.isTrading = false`. -/

/-- One queued sell job (`{tokenAddress, amount, resolve}`); `amount = none`
is "sell all currently held". -/
structure SellJob where
  tokenAddress : String
  amount : Option Int
deriving DecidableEq, Repr

/-- State read and written by one worker-loop iteration. -/
structure WorkerState where
  isTrading : Bool
  queue : List SellJob
  portfolio : Portfolio
  deferred : List String
deriving DecidableEq, Repr

/-- One iteration of the `while (this.sellQueue.length > 0)` body.  Returns
the post-iteration state and the value the job was resolved with (`none`
when the job was merely re-enqueued, or the queue was empty and the loop
exited). -/
def processSellQueueStep (st : WorkerState) (env : SellEnv) :
    WorkerState × Option TradeResult :=
  match st.queue with
  | [] => (st, none)
  | job :: rest =>
    let amountRes :=
      match job.amount with
      | some a => some a
      | none =>
        let a := Portfolio.getTokenAmount st.portfolio job.tokenAddress
        if a ≤ 0 then none else some a
    match amountRes with
    | none =>
      -- resolve "no holding"; the `continue` runs the finally clause,
      -- which clears the flag (lines 195-197, 221-225)
      ({st with queue := rest, isTrading := false},
        some (failResult "没有持有该代币"))
    | some amount =>
      if st.isTrading then
        -- busy: re-enqueue at the tail and back off (lines 202-208);
        -- the `continue` then runs the finally clause, which assigns
        -- `isTrading := false` — releasing a flag this worker never set
        let requeued : List SellJob := rest ++ [⟨job.tokenAddress, some amount⟩]
        ({st with queue := requeued, isTrading := false}, none)
      else
        -- acquire the flag (line 211), perform the sell, resolve, and let
        -- the finally clause release the flag
        let out := performSell st.portfolio st.deferred job.tokenAddress
          amount env
        (⟨false, rest, out.portfolio, out.deferred⟩, some out.result)

/-! ### Interleaving model for buy / sell-worker concurrency

The JavaScript event loop executes each synchronous segment (the code
between two `await` suspension points) atomically.  The segments of
`buyToken` and of the sell-queue worker are modelled as labelled atomic
steps on a shared state; a scheduler chooses which task runs next.
`buyInFlight` / `sellInFlight` mark the window between a transaction's
submission and its confirmation. -/

/-- Program counter of a single `buyToken` invocation. -/
inductive BuyPC where
  | idle      -- about to run the busy check (lines 20-27)
  | started   -- flag acquired; suspended in fee lookup before submission
  | inflight  -- transaction submitted, awaiting `tx.wait()`
  | done
deriving DecidableEq, Repr

/-- Program counter of the sell-queue worker processing jobs with concrete
amounts (jobs enqueued by the external-buy handler carry an amount, so the
amount-resolution await is not taken). -/
inductive WorkerPC where
  | top       -- at the loop head, about to shift a job and test the flag
  | backoff   -- deferred: job re-enqueued, sleeping 500 ms
  | acquired  -- flag set; suspended in holding check / gas estimation
  | inflight  -- sellShares submitted, awaiting `tx.wait()`
deriving DecidableEq, Repr

/-- Shared state of the two tasks. -/
structure Sys where
  isTrading : Bool
  queue : List SellJob
  buyPC : BuyPC
  workerPC : WorkerPC
  buyInFlight : Bool
  sellInFlight : Bool
deriving DecidableEq, Repr

/-- Task identifiers for the scheduler. -/
inductive Tid where
  | buy
  | worker
deriving DecidableEq, Repr

/-- One atomic step of the chosen task.

Buy task (part_003):
* `idle`: the busy test and `isTrading = true` are one synchronous segment
  (lines 22-27); when busy the call fails immediately.
* `started → inflight`: `sendTransaction` resolves; the transaction is now
  in flight.
* `inflight → done`: `tx.wait()` resolves; the `finally` clause clears the
  flag.

Worker task (part_003 `_processSellQueue`):
* `top`: shift the job; the flag test and (in the acquire branch) the
  `isTrading = true` assignment are one synchronous segment (lines 202-211);
  in the busy branch the job is pushed back and the worker sleeps.
* `backoff → top`: the sleep elapses and `continue` runs the `finally`
  clause, assigning `isTrading := false`.
* `acquired → inflight`: `sellShares` resolves; the sell is in flight.
* `inflight → top`: confirmation; `finally` clears the flag. -/
def sysStep (s : Sys) : Tid → Sys
  | .buy =>
    match s.buyPC with
    | .idle =>
      if s.isTrading then {s with buyPC := .done}
      else {s with isTrading := true, buyPC := .started}
    | .started => {s with buyInFlight := true, buyPC := .inflight}
    | .inflight =>
      {s with buyInFlight := false, isTrading := false, buyPC := .done}
    | .done => s
  | .worker =>
    match s.workerPC with
    | .top =>
      match s.queue with
      | [] => s
      | job :: rest =>
        if s.isTrading then
          {s with queue := rest ++ [job], workerPC := .backoff}
        else
          {s with isTrading := true, queue := rest, workerPC := .acquired}
    | .backoff => {s with isTrading := false, workerPC := .top}
    | .acquired => {s with sellInFlight := true, workerPC := .inflight}
    | .inflight =>
      {s with sellInFlight := false, isTrading := false, workerPC := .top}

/-- Run a schedule (list of task choices) from a state. -/
def runSched (s : Sys) (sched : List Tid) : Sys := sched.foldl sysStep s

/-- Initial state: one sell job queued (with a concrete amount), a buy call
about to start, nothing in flight. -/
def sysInit : Sys :=
  ⟨false, [⟨"0xtoken", some 1⟩], .idle, .top, false, false⟩

/-- The interleaving exhibiting the mutual-exclusion violation: buy acquires
the flag, the worker defers the sell job, the buy submits, the worker's
backoff ends and its finally clause clears the flag, the worker then
re-dequeues the job, acquires the flag and submits the sell while the buy is
still awaiting confirmation. -/
def badSched : List Tid := [.buy, .worker, .buy, .worker, .worker, .worker]

/-! ### Event Monitor (ContractMonitor.processTradeEvent, src/src/monitor.js) -/

/-- A decoded `Trade` event with its transaction/log identifiers.  The
source compares `supply.toString() === "1"`; `supply` is a BigInt so this is
equivalent to `supply = 1`. -/
structure TradeEvent where
  txHash : String
  logIndex : Int
  traderAddr : String
  subject : String
  isBuy : Bool
  supply : Int
  multiplier : String
  blockNumber : Int
deriving DecidableEq, Repr

/-- Monitor state touched by `processTradeEvent`: the in-memory
deduplication set and the checkpoint block. -/
structure MonState where
  processedEvents : List String
  lastProcessedBlock : Int
deriving DecidableEq, Repr

/-- Callback dispatches emitted by `processTradeEvent` (via `setImmediate`). -/
inductive MonitorEffect where
  | newToken (subject txHash : String) (blockNumber : Int) (multiplier : String)
  | externalBuy (subject traderAddr : String) (isBuy : Bool) (supply : String)
      (txHash : String) (blockNumber : Int)
deriving DecidableEq, Repr

/-- The composite deduplication key: transaction hash + log index. -/
def eventId (e : TradeEvent) : String := e.txHash ++ "-" ++ toString e.logIndex

/-- `ContractMonitor.processTradeEvent` (monitor.js lines 207-289): drop
events with an empty subject, drop duplicates by `eventId` silently, emit
the new-token callback for `isBuy && supply == 1`, emit the external-buy
callback for every buy, and advance the checkpoint when the event's block
exceeds it. -/
def processTradeEvent (st : MonState) (e : TradeEvent) :
    MonState × List MonitorEffect :=
  if e.subject = "" then (st, [])
  else if st.processedEvents.contains (eventId e) then (st, [])
  else
    let st1 : MonState :=
      {st with processedEvents := st.processedEvents ++ [eventId e]}
    let effs :=
      (if e.isBuy ∧ e.supply = 1 then
        [MonitorEffect.newToken e.subject e.txHash e.blockNumber e.multiplier]
      else []) ++
      (if e.isBuy then
        [MonitorEffect.externalBuy e.subject e.traderAddr e.isBuy
          (toString e.supply) e.txHash e.blockNumber]
      else [])
    let st2 :=
      if e.blockNumber > st1.lastProcessedBlock then
        {st1 with lastProcessedBlock := e.blockNumber}
      else st1
    (st2, effs)

/-! ### Candidate Store (SqliteCandidateStore, src/src/candidatesSqlite.js)

Rows are keyed by the lowercased address (the table's primary key); rows are
modelled in their `_convert`ed form.  The EIP-55 checksum computation
(`ethers.getAddress`) is an external library call; it is modelled by its
catch-branch fallback (the original string), which no claim inspects. -/

/-- A candidate row (the `_convert`ed shape).  `backroomAttempts` is a field
the scanner patches but which is neither a table column nor in
`updateCandidate`'s allowed list, so it never persists; it is kept here to
model the value the scanner reads (always absent). -/
structure CandRow where
  address : String
  addressChecksum : String
  curveIndex : Option Int
  multiplier : Option String
  txHash : Option String
  createdAt : Int
  lastChecked : Int
  status : String
  creatorTwitter : Option String
  followers : Option Int
  isBlue : Bool
  boughtTxHash : Option String
  boughtAt : Option Int
  ignoredAt : Option Int
  lastError : Option String
  backroomAttempts : Option Int
deriving DecidableEq, Repr

/-- The candidate table: lowercased address → row. -/
abbrev CandStore := List (String × CandRow)

/-- Update the row at key `k` in place (SQL `UPDATE ... WHERE address = ?`:
a no-op when the row is absent). -/
def updateRow : CandStore → String → (CandRow → CandRow) → CandStore
  | [], _, _ => []
  | (k', v) :: rest, k, f =>
    if k' = k then (k', f v) :: updateRow rest k f
    else (k', v) :: updateRow rest k f

/-- `SqliteCandidateStore.addCandidate` (lines 43-70): `INSERT OR IGNORE`
keyed on the lowercased address with `lastChecked 0` and `status 'pending'`. -/
def addCandidate (s : CandStore) (address : String) (curveIndex : Int)
    (multiplier : Option String) (txHash : Option String) (createdAt : Int) :
    CandStore :=
  let key := jsToLower address
  if (lookupKey s key).isSome then s
  else
    s ++ [(key,
      ⟨key, address, some curveIndex, multiplier, txHash, createdAt, 0,
        "pending", none, none, false, none, none, none, none, none⟩)]

/-- `removeCandidate`: delete the row (the JSON-store variant; the scanner's
OR variant calls this on backroom timeout). -/
def removeCandidate (s : CandStore) (address : String) : CandStore :=
  eraseKey s (jsToLower address)

/-- `updateCandidate` with the patch `{lastChecked, backroomAttempts}`: the
`backroomAttempts` key is filtered out by the allowed-fields list, so only
`lastChecked` is written. -/
def updateLastChecked (s : CandStore) (address : String) (now : Int) :
    CandStore :=
  updateRow s (jsToLower address) (fun r => {r with lastChecked := now})

/-- `updateCandidate` with the patch
`{lastChecked, creatorTwitter, status: "error", lastError}`. -/
def setFetchError (s : CandStore) (address : String) (now : Int)
    (handle : String) (msg : String) : CandStore :=
  updateRow s (jsToLower address) (fun r =>
    {r with lastChecked := now, creatorTwitter := some handle, status := "error", lastError := some msg})

/-- `updateCandidate` with the evaluation patch
`{lastChecked, creatorTwitter, followers, isBlue}`. -/
def setEval (s : CandStore) (address : String) (now : Int) (handle : String)
    (followers : Int) (isBlue : Bool) : CandStore :=
  updateRow s (jsToLower address) (fun r =>
    {r with lastChecked := now, creatorTwitter := some handle, followers := some followers, isBlue := isBlue})

/-- `updateCandidate` with the buy-failure patch
`{status: "error", lastChecked, lastError}`. -/
def setBuyError (s : CandStore) (address : String) (now : Int)
    (msg : String) : CandStore :=
  updateRow s (jsToLower address) (fun r => {r with status := "error", lastChecked := now, lastError := some msg})

/-- `markBought` (lines 133-139). -/
def markBought (s : CandStore) (address : String)
    (boughtTxHash : Option String) (now : Int) : CandStore :=
  updateRow s (jsToLower address) (fun r => {r with status := "bought", boughtTxHash := boughtTxHash, boughtAt := some now})

/-- `markIgnored` (lines 141-147). -/
def markIgnored (s : CandStore) (address : String) (reason : Option String)
    (now : Int) : CandStore :=
  updateRow s (jsToLower address) (fun r => {r with status := "ignored", ignoredAt := some now, lastError := reason})

/-! ### Candidate Scanner (`src/unnamed/part_002`, two `handleCandidate`
variants)

The first variant admits on `followers > threshold || isBlue` (OR policy,
with backroom eviction by elapsed time and deletion); the second admits on
`followers > threshold && (!requireBlue || isBlue)` (AND policy, with
backroom eviction by attempt count and mark-ignored).  External HTTP
lookups and the buy call are supplied through an environment. -/

/-- Room metadata returned by the backroom API. -/
structure RoomData where
  creatorTwitter : Option String
deriving DecidableEq, Repr

/-- Social profile returned by the twitter API (after the source's
`Number(...)` / `Boolean(...)` field coalescing). -/
structure TwitterUser where
  followers : Int
  isBlue : Bool
deriving DecidableEq, Repr

/-- Outcome of the `trader.buyToken` call made under admission. -/
inductive BuyTry where
  | res (r : TradeResult)
  | threw (msg : String)
deriving DecidableEq, Repr

/-- Environment for one `handleCandidate` run. -/
structure ScanEnv where
  room : Option RoomData
  twitter : Option TwitterUser
  buyTry : BuyTry
  now : Int
deriving DecidableEq, Repr

/-- Scanner-relevant configuration fields (`none` = absent from
config.json, triggering the source's defaults). -/
structure ScanConfig where
  twitterFollowersThreshold : Option Int
  buyAmountOnCondition : Option Int
  requireBlueVerification : Option Bool
  backroomTimeoutMinutes : Option Int
  backroomMaxAttempts : Option Int
deriving DecidableEq, Repr

/-- A `trader.buyToken(address, buyAmount, curveIndex)` invocation. -/
structure BuyCall where
  address : String
  amount : Int
  curveIndex : Int
deriving DecidableEq, Repr

/-- Result of a `handleCandidate` run: the store after all persisted writes,
the buy calls issued, and the message of an uncaught exception if the run
aborted (caught by `scanOnce`'s per-candidate try/catch). -/
structure ScanOutcome where
  store : CandStore
  buyCalls : List BuyCall
  thrown : Option String
deriving DecidableEq, Repr

/-- Shared admission phase of both variants (lines 179-204 / 469-494): one
`trader.buyToken(address, buyAmount, curveIndex ?? 0)` call; on a falsy
`success` set status `error` with `res.error || "buy failed"`; on success
`markBought(address, res.txHash || null)`; an exception from the buy sets
status `error` with the exception message. -/
def scannerBuyPhase (store : CandStore) (address : String) (buyAmount : Int)
    (curveIndex : Int) (buyTry : BuyTry) (now : Int) : ScanOutcome :=
  let call : BuyCall := ⟨address, buyAmount, curveIndex⟩
  match buyTry with
  | .threw msg => ⟨setBuyError store address now msg, [call], none⟩
  | .res r =>
    if r.success then
      ⟨markBought store address r.txHash now, [call], none⟩
    else
      ⟨setBuyError store address now (r.error.getD "buy failed"), [call], none⟩

/-- `handleCandidate`, first variant (OR policy, part_002 lines 72-214).

On a missing room or missing `creatorTwitter`, the candidate is deleted when
`now - createdAt` exceeds the timeout (`backroomTimeoutMinutes ?? 5`
minutes), else only `lastChecked` persists (the `backroomAttempts` patch
field is dropped by the store).  On admission (`followers > threshold ||
isBlue`) the buy phase runs after the fire-and-forget notification.  On
non-admission the log template references the variable `requireBlue`, which
is not defined anywhere in this variant, so evaluating it raises a
`ReferenceError` before `markIgnored` is reached; the run aborts with the
evaluation-field write (line 149) already persisted. -/
def handleCandidateOr (cfg : ScanConfig) (store : CandStore) (c : CandRow)
    (env : ScanEnv) : ScanOutcome :=
  let address := c.address
  let timeoutMinutes := cfg.backroomTimeoutMinutes.getD 5
  let timeoutMs := max 1 timeoutMinutes * 60 * 1000
  let handleOpt :=
    match env.room with
    | none => none
    | some room => room.creatorTwitter
  match handleOpt with
  | none =>
    if env.now - c.createdAt ≥ timeoutMs then
      ⟨removeCandidate store address, [], none⟩
    else
      ⟨updateLastChecked store address env.now, [], none⟩
  | some creatorTwitter =>
    match env.twitter with
    | none =>
      ⟨setFetchError store address env.now creatorTwitter
        "twitter fetch failed", [], none⟩
    | some tw =>
      let followers := tw.followers
      let isBlue := tw.isBlue
      let store1 := setEval store address env.now creatorTwitter followers
        isBlue
      let followersThreshold := cfg.twitterFollowersThreshold.getD 10000
      let buyAmount := cfg.buyAmountOnCondition.getD 5
      let passFollowers := followers > followersThreshold
      let passBlue := isBlue
      if passFollowers || passBlue then
        scannerBuyPhase store1 address buyAmount (c.curveIndex.getD 0)
          env.buyTry env.now
      else
        ⟨store1, [], some "ReferenceError: requireBlue is not defined"⟩

/-- `handleCandidate`, second variant (AND policy, part_002 lines 372-504).

On a missing room or missing `creatorTwitter`, `lastChecked` persists and,
when the freshly computed attempt count reaches `backroomMaxAttempts ?? 10`,
the candidate is marked ignored.  Admission requires `followers > threshold
&& (!requireBlue || isBlue)` with `requireBlue` defaulting to `true`; on
non-admission the candidate is marked ignored with the criteria reason
string. -/
def handleCandidateAnd (cfg : ScanConfig) (store : CandStore) (c : CandRow)
    (env : ScanEnv) : ScanOutcome :=
  let address := c.address
  let maxAttempts := cfg.backroomMaxAttempts.getD 10
  let currentAttempts := c.backroomAttempts.getD 0 + 1
  let handleOpt :=
    match env.room with
    | none => none
    | some room => room.creatorTwitter
  match handleOpt with
  | none =>
    let store1 := updateLastChecked store address env.now
    if currentAttempts ≥ maxAttempts then
      ⟨markIgnored store1 address (some "backroom max attempts reached")
        env.now, [], none⟩
    else
      ⟨store1, [], none⟩
  | some creatorTwitter =>
    match env.twitter with
    | none =>
      ⟨setFetchError store address env.now creatorTwitter
        "twitter fetch failed", [], none⟩
    | some tw =>
      let followers := tw.followers
      let isBlue := tw.isBlue
      let store1 := setEval store address env.now creatorTwitter followers
        isBlue
      let followersThreshold := cfg.twitterFollowersThreshold.getD 10000
      let requireBlue := cfg.requireBlueVerification.getD true
      let buyAmount := cfg.buyAmountOnCondition.getD 5
      let passFollowers := followers > followersThreshold
      let passBlue := !requireBlue || isBlue
      if passFollowers && passBlue then
        scannerBuyPhase store1 address buyAmount (c.curveIndex.getD 0)
          env.buyTry env.now
      else
        let reason := "criteria not met: followers>" ++
          toString followersThreshold ++ " && blueRequired=" ++
          (if requireBlue then "true" else "false")
        ⟨markIgnored store1 address (some reason) env.now, [], none⟩

/-! ### TokenBot handlers (`src/unnamed/part_000`) -/

/-- `TokenBot.multiplierToCurveIndex` (lines 143-160). -/
def multiplierToCurveIndex (multiplier : String) : Int :=
  if multiplier = "20" then 3
  else if multiplier = "10" then 2
  else if multiplier = "5" then 1
  else 0

/-- `TokenBot.onNewTokenDetected` (lines 162-186): derive the curve index
from the multiplier and add the candidate with status `pending`. -/
def onNewTokenDetected (store : CandStore) (tokenAddress txHash : String)
    (multiplier : String) (now : Int) : CandStore :=
  addCandidate store tokenAddress (multiplierToCurveIndex multiplier)
    (some multiplier) (some txHash) now

/-- `TokenBot.onExternalBuyDetected` (lines 188-223): skip non-buys, the
`autoSellOnOthersBuy` switch, and our own trades; when the subject token is
held, sell the held amount via `trader.sellToken`.  With an idle trader and
an empty queue the enqueued job is drained immediately, so the sell equals
one `_performSell` run.  Returns the new portfolio, the new deferred-sell
set, and the sell result if a sell was attempted. -/
def onExternalBuyDetected (autoSellOnOthersBuy : Bool) (selfAddress : String)
    (p : Portfolio) (d : List String) (subject traderAddr : String)
    (isBuy : Bool) (env : SellEnv) :
    Portfolio × List String × Option TradeResult :=
  if !isBuy then (p, d, none)
  else if !autoSellOnOthersBuy then (p, d, none)
  else if jsToLower traderAddr = jsToLower selfAddress then (p, d, none)
  else
    let amount := Portfolio.getTokenAmount p subject
    if amount ≤ 0 then (p, d, none)
    else
      let out := performSell p d subject amount env
      (out.portfolio, out.deferred, some out.result)

/-! ### Ledger operation sequences (for the Position Ledger invariant) -/

/-- An operation on the Position Ledger as invoked by the Trade Executor:
a post-confirmation credit (`addToken`) or debit (`removeToken`). -/
inductive LedgerOp where
  | add (addr : String) (amount : Int) (txHash : String) (ts : Int)
  | remove (addr : String) (amount : Int)
deriving DecidableEq, Repr

/-- Apply one ledger operation. -/
def applyOp (p : Portfolio) : LedgerOp → Portfolio
  | .add a amt tx ts => Portfolio.addToken p a amt tx ts
  | .remove a amt => (Portfolio.removeToken p a amt).1

/-- Apply a sequence of ledger operations to a portfolio. -/
def applyOps (p : Portfolio) (ops : List LedgerOp) : Portfolio :=
  ops.foldl applyOp p

/-- Trade amounts credited by the executor are nonnegative (buys credit the
positive share count that was purchased). -/
def opOk : LedgerOp → Bool
  | .add _ amt _ _ => decide (0 ≤ amt)
  | .remove _ _ => true

/-- Every entry of the portfolio has a nonnegative `totalAmount`. -/
def EntriesNonneg (p : Portfolio) : Prop := ∀ kv ∈ p, 0 ≤ kv.2.totalAmount

/-- The portfolio's keys are pairwise distinct (JS object keys are unique). -/
def KeysNodup (p : Portfolio) : Prop := (p.map Prod.fst).Nodup

/-! ### Concrete scenario states -/

/-- Worker state for the deferral step: the trading flag is held by a
concurrent buy and one sell job (with a concrete amount) is queued. -/
def c2State : WorkerState := ⟨true, [⟨"0xtok", some 1⟩], [], []⟩

/-- Environment for a sell that would estimate and confirm normally (not
consulted on the deferral path). -/
def okSellEnv : SellEnv := ⟨.ok 100, .confirmed "0xsell" 2 21000 1⟩

/-- A ledger holding one unit of `"0xtok"` bought at `"0xbuy"`. -/
def c3Portfolio : Portfolio := Portfolio.addToken [] "0xtok" 1 "0xbuy" 0

/-- Sell environment whose gas estimation reverts with the contract's
last-share reason. -/
def c3LastShareEnv : SellEnv :=
  ⟨.err "execution reverted: Cannot sell the last share", .confirmed "0xnever" 0 0 1⟩

/-- Scenario D stage 1: the sell attempt that hits the last-share revert. -/
def c3Stage1 : SellOutcome := performSell c3Portfolio [] "0xtok" 1 c3LastShareEnv

/-- Scenario D stage 2: a subsequent external-buy event on the deferred
token (another trader buys; the triggered sell succeeds on-chain). -/
def c3Stage2 : Portfolio × List String × Option TradeResult :=
  onExternalBuyDetected true "0xself" c3Stage1.portfolio c3Stage1.deferred
    "0xtok" "0xother" true okSellEnv

/-- A config.json with none of the scanner fields set (source defaults:
threshold 10000, buy amount 5, blue verification required in the AND
variant). -/
def scanCfgDefault : ScanConfig := ⟨none, none, none, none, none⟩

/-- A pending candidate that will fail both admission criteria. -/
def c8Cand : CandRow :=
  ⟨"0xcand", "0xCand", some 0, none, none, 0, 0, "pending", none, none,
    false, none, none, none, none, none⟩

/-- Store containing just `c8Cand`. -/
def c8Store : CandStore := [("0xcand", c8Cand)]

/-- Environment resolving the room and a profile with 5000 followers and no
blue verification (below threshold, not verified). -/
def c8Env : ScanEnv :=
  ⟨some ⟨some "creator"⟩, some ⟨5000, false⟩, .res (failResult "unused"), 100⟩

/-- Scanner config with the follower threshold set to 10000 explicitly. -/
def c6Cfg : ScanConfig := ⟨some 10000, none, none, none, none⟩

/-- A pending candidate with curve index 2. -/
def c6Cand : CandRow :=
  ⟨"0xcand", "0xCand", some 2, none, none, 0, 0, "pending", none, none,
    false, none, none, none, none, none⟩

/-- Environment for scenario C: 15000 followers, not verified, and a buy
call that succeeds with hash `"0xbuytx"`. -/
def c6Env : ScanEnv :=
  ⟨some ⟨some "creator"⟩, some ⟨15000, false⟩,
    .res ⟨true, some "0xbuytx", some 7, some "21000", none⟩, 100⟩

/-! ## Helper lemmas -/

theorem lookupKey_setKey_self {α : Type} (l : List (String × α)) (k : String)
    (v : α) : lookupKey (setKey l k v) k = some v := by
  induction l with
  | nil => simp [setKey, lookupKey]
  | cons hd tl ih =>
    by_cases h : hd.1 = k
    · simp [setKey, lookupKey, h]
    · simp [setKey, lookupKey, h, ih]

theorem lookupKey_setKey_ne {α : Type} (l : List (String × α)) (k k' : String)
    (v : α) (h : k ≠ k') : lookupKey (setKey l k v) k' = lookupKey l k' := by
  induction l with
  | nil => simp [setKey, lookupKey, h]
  | cons hd tl ih =>
    by_cases h1 : hd.1 = k
    · simp [setKey, lookupKey, h1, h]
    · simp [setKey, lookupKey, h1, ih]

theorem mem_setKey {α : Type} {l : List (String × α)} {k : String} {v : α}
    {x : String × α} (hx : x ∈ setKey l k v) : x = (k, v) ∨ x ∈ l := by
  induction l with
  | nil => simpa [setKey] using hx
  | cons hd tl ih =>
    by_cases h : hd.1 = k
    · rw [setKey] at hx
      simp only [h, if_true] at hx
      rcases List.mem_cons.1 hx with h1 | h1
      · exact Or.inl h1
      · exact Or.inr (List.mem_cons_of_mem _ h1)
    · rw [setKey] at hx
      simp only [h, if_false] at hx
      rcases List.mem_cons.1 hx with h1 | h1
      · exact Or.inr (h1 ▸ List.mem_cons_self _ _)
      · rcases ih h1 with h2 | h2
        · exact Or.inl h2
        · exact Or.inr (List.mem_cons_of_mem _ h2)

theorem eraseKey_sublist {α : Type} (l : List (String × α)) (k : String) :
    (eraseKey l k).Sublist l := by
  induction l with
  | nil => simp [eraseKey]
  | cons hd tl ih =>
    by_cases h : hd.1 = k
    · simp only [eraseKey, h, if_true]
      exact List.sublist_cons_of_sublist _ (List.Sublist.refl tl)
    · simp only [eraseKey, h, if_false]
      exact List.Sublist.cons₂ _ ih

theorem mem_eraseKey {α : Type} {l : List (String × α)} {k : String}
    {x : String × α} (hx : x ∈ eraseKey l k) : x ∈ l :=
  (eraseKey_sublist l k).mem hx

theorem lookupKey_mem {α : Type} {l : List (String × α)} {k : String} {v : α}
    (h : lookupKey l k = some v) : (k, v) ∈ l := by
  induction l with
  | nil => simp [lookupKey] at h
  | cons hd tl ih =>
    by_cases h1 : hd.1 = k
    · simp only [lookupKey, h1, if_true, Option.some_inj] at h
      have hkv : (k, v) = hd := by cases hd; simp_all
      rw [hkv]
      exact List.mem_cons_self _ _
    · simp only [lookupKey, h1, if_false] at h
      exact List.mem_cons_of_mem _ (ih h)

theorem lookupKey_eq_none_of_not_mem {α : Type} {l : List (String × α)}
    {k : String} (h : k ∉ l.map Prod.fst) : lookupKey l k = none := by
  induction l with
  | nil => simp [lookupKey]
  | cons hd tl ih =>
    simp only [List.map_cons, List.mem_cons] at h
    push_neg at h
    simp only [lookupKey, Ne.symm h.1, if_false]
    exact ih h.2

theorem keys_setKey_subset {α : Type} (l : List (String × α)) (k : String)
    (v : α) : ∀ x ∈ (setKey l k v).map Prod.fst,
      x = k ∨ x ∈ l.map Prod.fst := by
  intro x hx
  rcases List.mem_map.1 hx with ⟨y, hy, hxy⟩
  rcases mem_setKey hy with h1 | h1
  · left
    rw [← hxy, h1]
  · right
    exact hxy ▸ List.mem_map_of_mem _ h1

theorem keysNodup_setKey {α : Type} {l : List (String × α)} (k : String)
    (v : α) (h : (l.map Prod.fst).Nodup) :
    ((setKey l k v).map Prod.fst).Nodup := by
  induction l with
  | nil => simp [setKey]
  | cons hd tl ih =>
    simp only [List.map_cons, List.nodup_cons] at h
    by_cases h1 : hd.1 = k
    · simp only [setKey, h1, if_true, List.map_cons, List.nodup_cons]
      exact ⟨h1 ▸ h.1, h.2⟩
    · simp only [setKey, h1, if_false, List.map_cons, List.nodup_cons]
      refine ⟨fun hmem => ?_, ih h.2⟩
      rcases keys_setKey_subset tl k v _ hmem with h2 | h2
      · exact h1 h2
      · exact h.1 h2

theorem keysNodup_eraseKey {α : Type} {l : List (String × α)} (k : String)
    (h : (l.map Prod.fst).Nodup) : ((eraseKey l k).map Prod.fst).Nodup :=
  (((eraseKey_sublist l k).map Prod.fst).nodup h)

theorem lookupKey_eraseKey_self {α : Type} {l : List (String × α)}
    {k : String} (h : (l.map Prod.fst).Nodup) :
    lookupKey (eraseKey l k) k = none := by
  induction l with
  | nil => simp [eraseKey, lookupKey]
  | cons hd tl ih =>
    simp only [List.map_cons, List.nodup_cons] at h
    by_cases h1 : hd.1 = k
    · simp only [eraseKey, h1, if_true]
      exact lookupKey_eq_none_of_not_mem (h1 ▸ h.1)
    · simp only [eraseKey, h1, if_false, lookupKey, h1]
      exact ih h.2

theorem lookupKey_eraseKey_ne {α : Type} (l : List (String × α))
    (k k' : String) (h : k ≠ k') :
    lookupKey (eraseKey l k) k' = lookupKey l k' := by
  induction l with
  | nil => simp [eraseKey]
  | cons hd tl ih =>
    by_cases h1 : hd.1 = k
    · have h2 : ¬ hd.1 = k' := by rw [h1]; exact h
      simp [eraseKey, lookupKey, h1, h2, h]
    · by_cases h2 : hd.1 = k'
      · simp [eraseKey, lookupKey, h1, h2, Ne.symm h]
      · simp [eraseKey, lookupKey, h1, h2, ih]

theorem lookupKey_concat_isSome {α : Type} (l : List (String × α))
    (k : String) (v : α) : (lookupKey (l ++ [(k, v)]) k).isSome = true := by
  induction l with
  | nil => simp [lookupKey]
  | cons hd tl ih =>
    by_cases h : hd.1 = k
    · simp [lookupKey, h]
    · simpa [lookupKey, h] using ih

theorem contains_concat_self (l : List String) (x : String) :
    (l ++ [x]).contains x = true := by
  induction l with
  | nil => simp
  | cons hd tl ih => simp [List.contains_cons, ih]

theorem entriesNonneg_nonneg {p : Portfolio} (h : EntriesNonneg p)
    {k : String} {e : PosEntry} (hl : lookupKey p k = some e) :
    0 ≤ e.totalAmount := h _ (lookupKey_mem hl)

theorem entriesNonneg_addToken {p : Portfolio} (h : EntriesNonneg p)
    (a : String) {amt : Int} (hamt : 0 ≤ amt) (tx : String) (ts : Int) :
    EntriesNonneg (Portfolio.addToken p a amt tx ts) := by
  intro kv hkv
  rw [Portfolio.addToken] at hkv
  rcases mem_setKey hkv with h1 | h1
  · rw [h1]
    cases hl : lookupKey p a with
    | none => simp [hl]; omega
    | some e =>
      have := entriesNonneg_nonneg h hl
      simp [hl]
      omega
  · exact h _ h1

theorem entriesNonneg_removeToken {p : Portfolio} (h : EntriesNonneg p)
    (a : String) (amt : Int) :
    EntriesNonneg (Portfolio.removeToken p a amt).1 := by
  rw [Portfolio.removeToken]
  cases hl : lookupKey p a with
  | none => exact h
  | some e =>
    by_cases h1 : e.totalAmount < amt
    · simp only [h1, if_true]
      exact h
    · by_cases h2 : e.totalAmount - amt = 0
      · simp only [h1, if_false, h2, if_true]
        exact fun kv hkv => h _ (mem_eraseKey hkv)
      · simp only [h1, if_false, h2]
        intro kv hkv
        rcases mem_setKey hkv with h3 | h3
        · rw [h3]
          simp
          omega
        · exact h _ h3

theorem keysNodup_addToken {p : Portfolio} (h : KeysNodup p)
    (a : String) (amt : Int) (tx : String) (ts : Int) :
    KeysNodup (Portfolio.addToken p a amt tx ts) := by
  rw [Portfolio.addToken]
  exact keysNodup_setKey _ _ h

theorem keysNodup_removeToken {p : Portfolio} (h : KeysNodup p)
    (a : String) (amt : Int) : KeysNodup (Portfolio.removeToken p a amt).1 := by
  rw [Portfolio.removeToken]
  cases hl : lookupKey p a with
  | none => exact h
  | some e =>
    by_cases h1 : e.totalAmount < amt
    · simp only [h1, if_true]
      exact h
    · by_cases h2 : e.totalAmount - amt = 0
      · simp only [h1, if_false, h2, if_true]
        exact keysNodup_eraseKey _ h
      · simp only [h1, if_false, h2]
        exact keysNodup_setKey _ _ h

theorem wf_applyOps (p : Portfolio) (ops : List LedgerOp)
    (hops : ∀ op ∈ ops, opOk op = true)
    (hp : EntriesNonneg p ∧ KeysNodup p) :
    EntriesNonneg (applyOps p ops) ∧ KeysNodup (applyOps p ops) := by
  induction ops generalizing p with
  | nil => exact hp
  | cons op rest ih =>
    rw [applyOps, List.foldl_cons]
    refine ih (applyOp p op) (fun o ho => hops o (List.mem_cons_of_mem _ ho)) ?_
    have hop := hops op (List.mem_cons_self _ _)
    cases op with
    | add a amt tx ts =>
      simp only [opOk, decide_eq_true_eq] at hop
      exact ⟨entriesNonneg_addToken hp.1 a hop tx ts,
        keysNodup_addToken hp.2 a amt tx ts⟩
    | remove a amt =>
      exact ⟨entriesNonneg_removeToken hp.1 a amt,
        keysNodup_removeToken hp.2 a amt⟩

theorem removeToken_reject_unchanged (p : Portfolio) (a : String)
    (amt : Int) (h : (Portfolio.removeToken p a amt).2 = false) :
    (Portfolio.removeToken p a amt).1 = p := by
  rw [Portfolio.removeToken] at h ⊢
  cases hl : lookupKey p a with
  | none => rfl
  | some e =>
    simp only [hl] at h ⊢
    by_cases h1 : e.totalAmount < amt
    · simp [h1]
    · by_cases h2 : e.totalAmount - amt = 0 <;> simp [h1, h2] at h

theorem getTokenAmount_of_lookup {p : Portfolio} {a : String} {e : PosEntry}
    (hl : lookupKey p a = some e) :
    Portfolio.getTokenAmount p a = e.totalAmount := by
  rw [Portfolio.getTokenAmount, hl]
  rfl

theorem removeToken_deleted_iff (p : Portfolio) (a : String) (amt : Int)
    (hnodup : KeysNodup p) (h : (Portfolio.removeToken p a amt).2 = true) :
    (lookupKey (Portfolio.removeToken p a amt).1 a = none ↔
      Portfolio.getTokenAmount p a = amt) := by
  rw [Portfolio.removeToken] at h ⊢
  cases hl : lookupKey p a with
  | none => simp [hl] at h
  | some e =>
    simp only [hl] at h ⊢
    by_cases h1 : e.totalAmount < amt
    · simp [h1] at h
    · by_cases h2 : e.totalAmount - amt = 0
      · simp only [h1, if_false, h2, if_true]
        rw [lookupKey_eraseKey_self hnodup, getTokenAmount_of_lookup hl]
        constructor
        · intro _
          omega
        · intro _
          rfl
      · simp only [h1, if_false, h2, if_false]
        rw [lookupKey_setKey_self, getTokenAmount_of_lookup hl]
        constructor
        · intro hcontra
          exact absurd hcontra (by simp)
        · intro heq
          omega

theorem performSell_insufficient (p : Portfolio) (d : List String)
    (a : String) (amt : Int) (env : SellEnv)
    (h : Portfolio.getTokenAmount p a < amt) :
    performSell p d a amt env = ⟨failResult "持仓不足", p, d, false⟩ := by
  rw [performSell]
  simp [h]

theorem buyToken_fail_unchanged (isT : Bool) (p : Portfolio) (a : String)
    (amt : Int) (env : BuyEnv) (now : Int)
    (h : (buyToken isT p a amt env now).result.success = false) :
    (buyToken isT p a amt env now).portfolio = p := by
  rw [buyToken.eq_def] at h ⊢
  by_cases hT : isT
  · simp [hT]
  · cases env with
    | encodeError msg => simp [hT]
    | sendException code msg => simp [hT]
    | confirmed tx bn gas status =>
      by_cases h1 : status = 1
      · simp [hT, h1, failResult] at h
      · simp [hT, h1]

theorem buyToken_success_shape (isT : Bool) (p : Portfolio) (a : String)
    (amt : Int) (env : BuyEnv) (now : Int)
    (h : (buyToken isT p a amt env now).result.success = true) :
    ∃ tx, (buyToken isT p a amt env now).result.txHash = some tx ∧
      (buyToken isT p a amt env now).portfolio =
        Portfolio.addToken p a amt tx now := by
  rw [buyToken.eq_def] at h ⊢
  by_cases hT : isT
  · simp [hT, failResult] at h
  · cases env with
    | encodeError msg => simp [hT, failResult] at h
    | sendException code msg => simp [hT, failResult] at h
    | confirmed tx bn gas status =>
      by_cases h1 : status = 1
      · exact ⟨tx, by simp [hT, h1]⟩
      · simp [hT, h1, failResult] at h

theorem performSellSend_fail_unchanged (p : Portfolio) (d : List String)
    (a : String) (amt : Int) (send : SendOutcome)
    (h : (performSellSend p d a amt send).result.success = false) :
    (performSellSend p d a amt send).portfolio = p := by
  rw [performSellSend.eq_def] at h ⊢
  cases send with
  | confirmed tx bn gas status =>
    by_cases h1 : status = 1
    · simp [h1] at h
    · simp [h1]
  | threw code msg =>
    by_cases h1 : strContains (jsToLower msg) "cannot sell the last share" = true
    · simp [h1] at h
    · by_cases h2 : strContains (jsToLower msg) "insufficient shares" = true
      · simp [h1, h2]
      · simp [h1, h2]

theorem performSell_fail_unchanged (p : Portfolio) (d : List String)
    (a : String) (amt : Int) (env : SellEnv)
    (h : (performSell p d a amt env).result.success = false) :
    (performSell p d a amt env).portfolio = p := by
  rw [performSell] at h ⊢
  by_cases hh : Portfolio.getTokenAmount p a < amt
  · simp [hh]
  · cases henv : env.estimate with
    | ok g =>
      simp only [hh, if_false, henv] at h ⊢
      exact performSellSend_fail_unchanged p d a amt env.send h
    | err msg =>
      simp only [hh, if_false, henv] at h ⊢
      by_cases h1 : strContains (jsToLower msg) "cannot sell the last share" = true
      · simp [h1] at h
      · by_cases h2 : strContains (jsToLower msg) "insufficient shares" = true
        · simp [h1, h2]
        · simp only [h1, if_false, h2] at h ⊢
          exact performSellSend_fail_unchanged p d a amt env.send h

theorem performSellSend_success_shape (p : Portfolio) (d : List String)
    (a : String) (amt : Int) (send : SendOutcome)
    (h : (performSellSend p d a amt send).result.success = true) :
    ((performSellSend p d a amt send).result.txHash = none →
      (performSellSend p d a amt send).portfolio = p) ∧
    (∀ tx, (performSellSend p d a amt send).result.txHash = some tx →
      (performSellSend p d a amt send).portfolio =
        (Portfolio.removeToken p a amt).1) := by
  rw [performSellSend.eq_def] at h ⊢
  cases send with
  | confirmed tx bn gas status =>
    by_cases h1 : status = 1
    · simp [h1]
    · simp [h1, failResult] at h
  | threw code msg =>
    by_cases h1 : strContains (jsToLower msg) "cannot sell the last share" = true
    · simp [h1]
    · by_cases h2 : strContains (jsToLower msg) "insufficient shares" = true
      · simp [h1, h2, failResult] at h
      · simp [h1, h2, failResult] at h

theorem performSell_success_shape (p : Portfolio) (d : List String)
    (a : String) (amt : Int) (env : SellEnv)
    (h : (performSell p d a amt env).result.success = true) :
    ((performSell p d a amt env).result.txHash = none →
      (performSell p d a amt env).portfolio = p) ∧
    (∀ tx, (performSell p d a amt env).result.txHash = some tx →
      (performSell p d a amt env).portfolio =
        (Portfolio.removeToken p a amt).1) := by
  rw [performSell] at h ⊢
  by_cases hh : Portfolio.getTokenAmount p a < amt
  · simp [hh, failResult] at h
  · cases henv : env.estimate with
    | ok g =>
      simp only [hh, if_false, henv] at h ⊢
      exact performSellSend_success_shape p d a amt env.send h
    | err msg =>
      simp only [hh, if_false, henv] at h ⊢
      by_cases h1 : strContains (jsToLower msg) "cannot sell the last share" = true
      · simp [h1]
      · by_cases h2 : strContains (jsToLower msg) "insufficient shares" = true
        · simp [h1, h2, failResult] at h
        · simp only [h1, if_false, h2] at h ⊢
          exact performSellSend_success_shape p d a amt env.send h

theorem performSell_deferred_monotone (p : Portfolio) (d : List String)
    (a : String) (amt : Int) (env : SellEnv) {t : String} (ht : t ∈ d) :
    t ∈ (performSell p d a amt env).deferred := by
  have hmark : ∀ d' a', t ∈ d' → t ∈ markDeferredSell d' a' := by
    intro d' a' ht'
    rw [markDeferredSell]
    split
    · exact ht'
    · exact List.mem_append_left _ ht'
  have hsend : t ∈ (performSellSend p d a amt env.send).deferred := by
    rw [performSellSend.eq_def]
    cases env.send with
    | confirmed tx bn gas status =>
      by_cases h1 : status = 1 <;> simp [h1, ht]
    | threw code msg =>
      by_cases h1 : strContains (jsToLower msg) "cannot sell the last share" = true
      · simpa [h1] using hmark d a ht
      · by_cases h2 : strContains (jsToLower msg) "insufficient shares" = true
        <;> simp [h1, h2, ht]
  rw [performSell]
  by_cases hh : Portfolio.getTokenAmount p a < amt
  · simpa [hh] using ht
  · cases henv : env.estimate with
    | ok g => simpa [hh, henv] using hsend
    | err msg =>
      by_cases h1 : strContains (jsToLower msg) "cannot sell the last share" = true
      · simpa [hh, henv, h1] using hmark d a ht
      · by_cases h2 : strContains (jsToLower msg) "insufficient shares" = true
        · simpa [hh, henv, h1, h2] using ht
        · simpa [hh, henv, h1, h2] using hsend

theorem lookupKey_append_left_none {α : Type} {l : List (String × α)}
    {k : String} (m : List (String × α)) (h : lookupKey l k = none) :
    lookupKey (l ++ m) k = lookupKey m k := by
  induction l with
  | nil => simp
  | cons hd tl ih =>
    by_cases h1 : hd.1 = k
    · simp [lookupKey, h1] at h
    · rw [lookupKey] at h
      simp only [h1, if_false] at h
      simpa [lookupKey, h1] using ih h

theorem lookupKey_updateRow (s : CandStore) (k : String) (f : CandRow → CandRow) :
    lookupKey (updateRow s k f) k = (lookupKey s k).map f := by
  induction s with
  | nil => simp [updateRow, lookupKey]
  | cons hd tl ih =>
    cases hd with
    | mk k' v =>
      by_cases h : k' = k
      · simp [updateRow, lookupKey, h]
      · simp [updateRow, lookupKey, h, ih]

theorem addCandidate_key_present (s : CandStore) (address : String)
    (ci : Int) (mult tx : Option String) (t : Int) :
    (lookupKey (addCandidate s address ci mult tx t)
      (jsToLower address)).isSome = true := by
  rw [addCandidate]
  by_cases h : (lookupKey s (jsToLower address)).isSome = true
  · simp [h]
  · simp only [h, Bool.false_eq_true, if_false]
    exact lookupKey_concat_isSome _ _ _

theorem addCandidate_of_present (s : CandStore) (address : String)
    (ci : Int) (mult tx : Option String) (t : Int)
    (h : (lookupKey s (jsToLower address)).isSome = true) :
    addCandidate s address ci mult tx t = s := by
  rw [addCandidate]
  simp [h]

theorem processedEvents_after (s : MonState) (e : TradeEvent)
    (h1 : ¬ e.subject = "")
    (h2 : ¬ s.processedEvents.contains (eventId e) = true) :
    (processTradeEvent s e).1.processedEvents =
      s.processedEvents ++ [eventId e] := by
  rw [processTradeEvent]
  simp only [h1, if_false, h2, Bool.false_eq_true]
  split <;> rfl

/-! ## Claims -/

/-- Claim C1: the claim states that for every interleaving of a `buyToken`
call and sell jobs drained by the sell-queue worker, the Trade Executor
never has two blockchain transactions in flight simultaneously for the same
wallet.  The code violates this: under the schedule `badSched` — buy
acquires the flag, the worker defers a queued sell job, the buy submits,
the worker's backoff ends and its `finally` clause clears the flag it never
acquired, the worker then re-dequeues the job, acquires the flag and
submits the sell — both a buy and a sell are in flight simultaneously. -/
theorem c1_buy_and_sell_overlap_in_flight :
    (runSched sysInit badSched).buyInFlight = true ∧
    (runSched sysInit badSched).sellInFlight = true :=
  ⟨rfl, rfl⟩

/-- Claim C2: the claim states that when the sell-queue worker dequeues a
job while the trading flag is held by another operation, the job is
re-enqueued at the tail and the trading flag remains set after the deferral
step.  The code re-enqueues the job at the tail, but the `continue`
statement triggers the loop body's `finally` clause, which assigns
`isTrading = false` — the deferring worker releases the flag it never
acquired. -/
theorem c2_deferral_clears_foreign_flag :
    (processSellQueueStep c2State okSellEnv).1.queue = [⟨"0xtok", some 1⟩] ∧
    (processSellQueueStep c2State okSellEnv).1.isTrading = false ∧
    (processSellQueueStep c2State okSellEnv).2 = none :=
  ⟨rfl, rfl, rfl⟩

/-- Claim C3 (counterexample): the last-share sell correctly returns
soft success with the deferred mark set, but a subsequent external-buy
event on the token — which triggers and completes an automatic sell — does
NOT clear the deferred-sell mark: it is still set afterwards, falsifying
the claim's final clause (`clearDeferredSell` is never invoked). -/
theorem c3_counterexample :
    c3Stage1.result.success = true ∧ c3Stage1.result.txHash = none ∧
    c3Stage1.submitted = false ∧
    isDeferredSell c3Stage1.deferred "0xtok" = true ∧
    c3Stage2.2.2 = some ⟨true, some "0xsell", some 2, some "21000", none⟩ ∧
    isDeferredSell c3Stage2.2.1 "0xtok" = true := by
  refine ⟨by decide, by decide, by decide, by decide, by decide, by decide⟩

/-- Claim C3 (amended): for every sell request covered by the holding whose
gas estimation fails with the revert reason "cannot sell the last share",
the sell returns success with a null transaction hash without submitting a
transaction and the token is added to the deferred-sell set; a subsequent
external-buy event on that token does not clear the deferred-sell mark —
no code path removes marks, so every existing mark persists through the
external-buy handler. -/
theorem c3_amended_deferred_mark_persists (p : Portfolio) (d : List String)
    (addr : String) (amt : Int) (msg : String) (send : SendOutcome)
    (h1 : amt ≤ Portfolio.getTokenAmount p addr)
    (h2 : strContains (jsToLower msg) "cannot sell the last share" = true)
    (autoSell : Bool) (selfAddr subject traderAddr : String) (isBuy : Bool)
    (env : SellEnv) (t : String) (ht : t ∈ d) :
    (performSell p d addr amt ⟨.err msg, send⟩).result.success = true ∧
    (performSell p d addr amt ⟨.err msg, send⟩).result.txHash = none ∧
    (performSell p d addr amt ⟨.err msg, send⟩).submitted = false ∧
    addr ∈ (performSell p d addr amt ⟨.err msg, send⟩).deferred ∧
    t ∈ (onExternalBuyDetected autoSell selfAddr p d subject traderAddr
      isBuy env).2.1 := by
  have hh : ¬ Portfolio.getTokenAmount p addr < amt := not_lt.2 h1
  have hmark : addr ∈ markDeferredSell d addr := by
    rw [markDeferredSell]
    split
    · next hc => exact List.mem_of_elem_eq_true hc
    · exact List.mem_append_right _ (List.mem_singleton_self _)
  refine ⟨?_, ?_, ?_, ?_, ?_⟩
  · rw [performSell]
    simp [hh, h2]
  · rw [performSell]
    simp [hh, h2]
  · rw [performSell]
    simp [hh, h2]
  · rw [performSell]
    simpa [hh, h2] using hmark
  · rw [onExternalBuyDetected]
    by_cases hb : (!isBuy) = true
    · simpa [hb] using ht
    · by_cases ha : (!autoSell) = true
      · simpa [hb, ha] using ht
      · by_cases hs : jsToLower traderAddr = jsToLower selfAddr
        · simpa [hb, ha, hs] using ht
        · by_cases hz : Portfolio.getTokenAmount p subject ≤ 0
          · simpa [hb, ha, hs, hz] using ht
          · simpa [hb, ha, hs, hz] using
              performSell_deferred_monotone p d subject
                (Portfolio.getTokenAmount p subject) env ht

/-- Witness for the amended C3 at a concrete input. -/
theorem c3_amended_witness :
    (1 ≤ Portfolio.getTokenAmount c3Portfolio "0xtok" ∧
      strContains (jsToLower "execution reverted: Cannot sell the last share")
        "cannot sell the last share" = true ∧
      "0xdef" ∈ ["0xdef"]) ∧
    ((performSell c3Portfolio ["0xdef"] "0xtok" 1
        ⟨.err "execution reverted: Cannot sell the last share",
          .confirmed "0xnever" 0 0 1⟩).result.success = true ∧
      (performSell c3Portfolio ["0xdef"] "0xtok" 1
        ⟨.err "execution reverted: Cannot sell the last share",
          .confirmed "0xnever" 0 0 1⟩).result.txHash = none ∧
      (performSell c3Portfolio ["0xdef"] "0xtok" 1
        ⟨.err "execution reverted: Cannot sell the last share",
          .confirmed "0xnever" 0 0 1⟩).submitted = false ∧
      "0xtok" ∈ (performSell c3Portfolio ["0xdef"] "0xtok" 1
        ⟨.err "execution reverted: Cannot sell the last share",
          .confirmed "0xnever" 0 0 1⟩).deferred ∧
      "0xdef" ∈ (onExternalBuyDetected true "0xself" c3Portfolio ["0xdef"]
        "0xtok" "0xother" true okSellEnv).2.1) :=
  ⟨⟨by decide, by decide, by decide⟩,
    c3_amended_deferred_mark_persists c3Portfolio ["0xdef"] "0xtok" 1
      "execution reverted: Cannot sell the last share"
      (.confirmed "0xnever" 0 0 1) (by decide) (by decide) true "0xself"
      "0xtok" "0xother" true okSellEnv "0xdef" (by decide)⟩

/-- Claim C4: for every token and every sequence of Position Ledger
operations with nonnegative credited amounts, `totalAmount` never goes
negative; `removeToken` for more than the held amount returns `false`
without mutation; a sell request for more than the held amount is rejected
by `_performSell` before transaction submission with the ledger unchanged;
and after a successful `removeToken` the entry is deleted exactly when the
new `totalAmount` is zero (i.e. the held amount equalled the removed
amount). -/
theorem c4_position_ledger_invariant (ops : List LedgerOp)
    (hops : ∀ op ∈ ops, opOk op = true) (addr : String) (amt : Int)
    (d : List String) (env : SellEnv) :
    EntriesNonneg (applyOps [] ops) ∧
    ((Portfolio.removeToken (applyOps [] ops) addr amt).2 = false →
      (Portfolio.removeToken (applyOps [] ops) addr amt).1 =
        applyOps [] ops) ∧
    (Portfolio.getTokenAmount (applyOps [] ops) addr < amt →
      (performSell (applyOps [] ops) d addr amt env).result.success = false ∧
      (performSell (applyOps [] ops) d addr amt env).submitted = false ∧
      (performSell (applyOps [] ops) d addr amt env).portfolio =
        applyOps [] ops) ∧
    ((Portfolio.removeToken (applyOps [] ops) addr amt).2 = true →
      (lookupKey (Portfolio.removeToken (applyOps [] ops) addr amt).1 addr
          = none ↔
        Portfolio.getTokenAmount (applyOps [] ops) addr = amt)) := by
  have hwf := wf_applyOps [] ops hops
    ⟨fun kv h => absurd h (List.not_mem_nil kv), List.nodup_nil⟩
  refine ⟨hwf.1, removeToken_reject_unchanged _ _ _, fun h => ?_,
    removeToken_deleted_iff _ _ _ hwf.2⟩
  rw [performSell_insufficient _ _ _ _ _ h]
  exact ⟨rfl, rfl, rfl⟩

/-- Witness for C4 at a concrete operation sequence. -/
theorem c4_witness :
    (∀ op ∈ ([.add "0xa" 2 "0xt1" 0, .remove "0xa" 1] : List LedgerOp),
      opOk op = true) ∧
    (EntriesNonneg (applyOps [] [.add "0xa" 2 "0xt1" 0, .remove "0xa" 1]) ∧
      ((Portfolio.removeToken
          (applyOps [] [.add "0xa" 2 "0xt1" 0, .remove "0xa" 1]) "0xa" 5).2
            = false →
        (Portfolio.removeToken
          (applyOps [] [.add "0xa" 2 "0xt1" 0, .remove "0xa" 1]) "0xa" 5).1 =
          applyOps [] [.add "0xa" 2 "0xt1" 0, .remove "0xa" 1]) ∧
      (Portfolio.getTokenAmount
          (applyOps [] [.add "0xa" 2 "0xt1" 0, .remove "0xa" 1]) "0xa" < 5 →
        (performSell (applyOps [] [.add "0xa" 2 "0xt1" 0, .remove "0xa" 1])
          [] "0xa" 5 okSellEnv).result.success = false ∧
        (performSell (applyOps [] [.add "0xa" 2 "0xt1" 0, .remove "0xa" 1])
          [] "0xa" 5 okSellEnv).submitted = false ∧
        (performSell (applyOps [] [.add "0xa" 2 "0xt1" 0, .remove "0xa" 1])
          [] "0xa" 5 okSellEnv).portfolio =
          applyOps [] [.add "0xa" 2 "0xt1" 0, .remove "0xa" 1]) ∧
      ((Portfolio.removeToken
          (applyOps [] [.add "0xa" 2 "0xt1" 0, .remove "0xa" 1]) "0xa" 5).2
            = true →
        (lookupKey (Portfolio.removeToken
            (applyOps [] [.add "0xa" 2 "0xt1" 0, .remove "0xa" 1]) "0xa" 5).1
            "0xa" = none ↔
          Portfolio.getTokenAmount
            (applyOps [] [.add "0xa" 2 "0xt1" 0, .remove "0xa" 1]) "0xa"
              = 5))) :=
  ⟨by decide,
    c4_position_ledger_invariant [.add "0xa" 2 "0xt1" 0, .remove "0xa" 1]
      (by decide) "0xa" 5 [] okSellEnv⟩

/-- Claim C5: processing a trade event a second time with the same
(transaction hash, log index) composite key has the same observable effect
as processing it once — the duplicate is dropped with no state change and
no callback dispatch — and adding the same candidate address twice leaves
the store exactly as after the first add (`INSERT OR IGNORE`). -/
theorem c5_duplicate_event_idempotent (s : MonState) (e : TradeEvent)
    (store : CandStore) (address : String) (ci : Int)
    (mult tx : Option String) (t : Int) :
    processTradeEvent (processTradeEvent s e).1 e =
      ((processTradeEvent s e).1, []) ∧
    addCandidate (addCandidate store address ci mult tx t) address ci mult
      tx t = addCandidate store address ci mult tx t := by
  constructor
  · by_cases h1 : e.subject = ""
    · simp [processTradeEvent, h1]
    · by_cases h2 : s.processedEvents.contains (eventId e) = true
      · have h2m : eventId e ∈ s.processedEvents := by simpa using h2
        simp [processTradeEvent, h1, h2m]
      · have hpe := processedEvents_after s e h1 h2
        have hmem : eventId e ∈ (processTradeEvent s e).1.processedEvents := by
          rw [hpe]
          exact List.mem_append_right _ (List.mem_singleton_self _)
        rw [processTradeEvent]
        simp [h1, hmem]
  · exact addCandidate_of_present _ _ _ _ _ _
      (addCandidate_key_present _ _ _ _ _ _)

/-- Claim C6: in the OR-policy scanner variant, a candidate whose creator
resolves to 15000 followers under a 10000 threshold and no verification is
admitted, exactly one buy call is issued with the configured buy amount and
the candidate's curve index, and on buy success the stored candidate's
status becomes `bought` with the returned transaction hash. -/
theorem c6_or_policy_admits_and_buys (cfg : ScanConfig) (store : CandStore)
    (c : CandRow) (env : ScanEnv) (handle : String) (r : TradeResult)
    (tx : String)
    (hthr : cfg.twitterFollowersThreshold = some 10000)
    (hroom : env.room = some ⟨some handle⟩)
    (htw : env.twitter = some ⟨15000, false⟩)
    (hbuy : env.buyTry = .res r)
    (hr : r.success = true)
    (htx : r.txHash = some tx)
    (hin : (lookupKey store (jsToLower c.address)).isSome = true) :
    (handleCandidateOr cfg store c env).buyCalls =
      [⟨c.address, cfg.buyAmountOnCondition.getD 5, c.curveIndex.getD 0⟩] ∧
    (handleCandidateOr cfg store c env).thrown = none ∧
    ∃ row, lookupKey (handleCandidateOr cfg store c env).store
        (jsToLower c.address) = some row ∧
      row.status = "bought" ∧ row.boughtTxHash = some tx := by
  obtain ⟨c0, hc0⟩ := Option.isSome_iff_exists.1 hin
  have hstep : handleCandidateOr cfg store c env =
      scannerBuyPhase (setEval store c.address env.now handle 15000 false)
        c.address (cfg.buyAmountOnCondition.getD 5) (c.curveIndex.getD 0)
        env.buyTry env.now := by
    rw [handleCandidateOr, hroom, htw, hthr]
    norm_num
  have hphase : scannerBuyPhase (setEval store c.address env.now handle
      15000 false) c.address (cfg.buyAmountOnCondition.getD 5)
      (c.curveIndex.getD 0) env.buyTry env.now =
      ⟨markBought (setEval store c.address env.now handle 15000 false)
        c.address r.txHash env.now,
       [⟨c.address, cfg.buyAmountOnCondition.getD 5, c.curveIndex.getD 0⟩],
       none⟩ := by
    rw [scannerBuyPhase.eq_def, hbuy]
    simp [hr]
  rw [hstep, hphase]
  refine ⟨rfl, rfl, ?_⟩
  rw [markBought, setEval, lookupKey_updateRow, lookupKey_updateRow, hc0]
  exact ⟨_, rfl, rfl, by simpa using htx⟩

/-- Witness for C6 at the concrete scenario-C input. -/
theorem c6_witness :
    (c6Cfg.twitterFollowersThreshold = some 10000 ∧
      c6Env.room = some ⟨some "creator"⟩ ∧
      c6Env.twitter = some ⟨15000, false⟩ ∧
      c6Env.buyTry =
        .res ⟨true, some "0xbuytx", some 7, some "21000", none⟩ ∧
      (lookupKey [("0xcand", c6Cand)] (jsToLower c6Cand.address)).isSome
        = true) ∧
    ((handleCandidateOr c6Cfg [("0xcand", c6Cand)] c6Cand c6Env).buyCalls =
      [⟨c6Cand.address, c6Cfg.buyAmountOnCondition.getD 5,
        c6Cand.curveIndex.getD 0⟩] ∧
    (handleCandidateOr c6Cfg [("0xcand", c6Cand)] c6Cand c6Env).thrown =
      none ∧
    ∃ row, lookupKey (handleCandidateOr c6Cfg [("0xcand", c6Cand)] c6Cand
        c6Env).store (jsToLower c6Cand.address) = some row ∧
      row.status = "bought" ∧ row.boughtTxHash = some "0xbuytx") :=
  ⟨⟨rfl, rfl, rfl, rfl, by decide⟩,
    c6_or_policy_admits_and_buys c6Cfg [("0xcand", c6Cand)] c6Cand c6Env
      "creator" ⟨true, some "0xbuytx", some 7, some "21000", none⟩ "0xbuytx"
      rfl rfl rfl rfl rfl rfl (by decide)⟩

/-- Claim C7: a new-token trade event (`isBuy`, `supply = 1`) with
multiplier "10" dispatches the new-token callback, and the resulting
candidate row has `curveIndex = 2` and status `pending`. -/
theorem c7_new_token_creates_pending_candidate (s : MonState)
    (e : TradeEvent) (store : CandStore) (now : Int)
    (h1 : e.isBuy = true) (h2 : e.supply = 1) (h3 : e.multiplier = "10")
    (h4 : e.subject ≠ "")
    (h5 : s.processedEvents.contains (eventId e) = false)
    (h6 : lookupKey store (jsToLower e.subject) = none) :
    MonitorEffect.newToken e.subject e.txHash e.blockNumber e.multiplier ∈
      (processTradeEvent s e).2 ∧
    ∃ row, lookupKey
        (onNewTokenDetected store e.subject e.txHash e.multiplier now)
        (jsToLower e.subject) = some row ∧
      row.curveIndex = some 2 ∧ row.status = "pending" := by
  constructor
  · have h5m : eventId e ∉ s.processedEvents := by simpa using h5
    rw [processTradeEvent]
    simp [h4, h5m, h1, h2]
  · have hcurve : multiplierToCurveIndex e.multiplier = 2 := by
      rw [h3]
      decide
    have hnone : (lookupKey store (jsToLower e.subject)).isSome = false := by
      rw [h6]
      rfl
    rw [onNewTokenDetected, addCandidate]
    simp only [hnone, Bool.false_eq_true, if_false]
    refine ⟨⟨jsToLower e.subject, e.subject,
      some (multiplierToCurveIndex e.multiplier), some e.multiplier,
      some e.txHash, now, 0, "pending", none, none, false, none, none, none,
      none, none⟩, ?_, ?_, rfl⟩
    · rw [lookupKey_append_left_none _ h6]
      simp [lookupKey]
    · rw [hcurve]

/-- Witness for C7 at a concrete new-token event. -/
theorem c7_witness :
    (let e : TradeEvent := ⟨"0xtx", 3, "0xtrader", "0xSub", true, 1, "10", 5⟩
    e.isBuy = true ∧ e.supply = 1 ∧ e.multiplier = "10" ∧ e.subject ≠ "" ∧
    (([] : List String).contains (eventId e)) = false ∧
    lookupKey ([] : CandStore) (jsToLower e.subject) = none ∧
    (MonitorEffect.newToken e.subject e.txHash e.blockNumber e.multiplier ∈
      (processTradeEvent ⟨[], 0⟩ e).2 ∧
    ∃ row, lookupKey
        (onNewTokenDetected [] e.subject e.txHash e.multiplier 99)
        (jsToLower e.subject) = some row ∧
      row.curveIndex = some 2 ∧ row.status = "pending")) :=
  ⟨rfl, rfl, rfl, by decide, rfl, rfl,
    c7_new_token_creates_pending_candidate ⟨[], 0⟩
      ⟨"0xtx", 3, "0xtrader", "0xSub", true, 1, "10", 5⟩ [] 99
      rfl rfl rfl (by decide) rfl rfl⟩

/-- Claim C8: the claim states that a candidate failing the admission
policy is marked ignored with a reason string in both scanner variants.
The AND variant does mark it ignored with the criteria reason, but in the
OR variant the non-admission branch's log template references `requireBlue`,
a variable that is not defined anywhere in that variant, so the branch
raises a `ReferenceError` before `markIgnored` is reached and the candidate
stays `pending`. -/
theorem c8_or_variant_throws_before_ignoring :
    (handleCandidateOr scanCfgDefault c8Store c8Cand c8Env).thrown =
      some "ReferenceError: requireBlue is not defined" ∧
    (lookupKey (handleCandidateOr scanCfgDefault c8Store c8Cand
      c8Env).store "0xcand").map CandRow.status = some "pending" ∧
    (handleCandidateOr scanCfgDefault c8Store c8Cand c8Env).buyCalls = [] ∧
    (lookupKey (handleCandidateAnd scanCfgDefault c8Store c8Cand
      c8Env).store "0xcand").map CandRow.status = some "ignored" ∧
    (lookupKey (handleCandidateAnd scanCfgDefault c8Store c8Cand
      c8Env).store "0xcand").map CandRow.lastError =
      some (some "criteria not met: followers>10000 && blueRequired=true") := by
  refine ⟨by decide, by decide, by decide, by decide, by decide⟩

/-- Claim C9 (counterexample): the Position Ledger key is not
case-insensitive: `"0xAB"` and `"0xab"` are the same address up to case,
yet after adding one unit under `"0xAB"` a query under `"0xab"` observes no
holding. -/
theorem c9_counterexample :
    jsToLower "0xAB" = jsToLower "0xab" ∧
    Portfolio.getTokenAmount
      (Portfolio.addToken [] "0xAB" 1 "0xbuy" 0) "0xAB" = 1 ∧
    Portfolio.getTokenAmount
      (Portfolio.addToken [] "0xAB" 1 "0xbuy" 0) "0xab" = 0 := by
  refine ⟨by decide, by decide, by decide⟩

/-- Claim C9 (amended): the Position Ledger key is case-sensitive (exact
string match): an operation under a key credits or debits exactly that
key's entry, and any different key — including another casing of the same
address — observes and keeps its own entry unchanged. -/
theorem c9_amended_exact_key_semantics (p : Portfolio) (k k' : String)
    (h : k ≠ k') (amt : Int) (tx : String) (ts : Int) :
    Portfolio.getTokenAmount (Portfolio.addToken p k amt tx ts) k =
      Portfolio.getTokenAmount p k + amt ∧
    Portfolio.getTokenAmount (Portfolio.addToken p k amt tx ts) k' =
      Portfolio.getTokenAmount p k' ∧
    lookupKey (Portfolio.removeToken p k amt).1 k' = lookupKey p k' := by
  refine ⟨?_, ?_, ?_⟩
  · rw [Portfolio.getTokenAmount, Portfolio.addToken, lookupKey_setKey_self]
    cases hl : lookupKey p k with
    | none => simp [Portfolio.getTokenAmount, hl]
    | some e => simp [Portfolio.getTokenAmount, hl]
  · rw [Portfolio.getTokenAmount, Portfolio.addToken,
      lookupKey_setKey_ne _ _ _ _ h, Portfolio.getTokenAmount]
  · rw [Portfolio.removeToken]
    cases hl : lookupKey p k with
    | none => rfl
    | some e =>
      by_cases h1 : e.totalAmount < amt
      · simp [h1]
      · by_cases h2 : e.totalAmount - amt = 0
        · simp only [h1, if_false, h2, if_true]
          exact lookupKey_eraseKey_ne _ _ _ h
        · simp only [h1, if_false, h2]
          exact lookupKey_setKey_ne _ _ _ _ h

/-- Witness for the amended C9 at two casings of the same address. -/
theorem c9_amended_witness :
    ("0xAB" ≠ "0xab") ∧
    (Portfolio.getTokenAmount
        (Portfolio.addToken [] "0xAB" 1 "0xbuy" 0) "0xAB" =
      Portfolio.getTokenAmount [] "0xAB" + 1 ∧
    Portfolio.getTokenAmount
        (Portfolio.addToken [] "0xAB" 1 "0xbuy" 0) "0xab" =
      Portfolio.getTokenAmount [] "0xab" ∧
    lookupKey (Portfolio.removeToken [] "0xAB" 1).1 "0xab" =
      lookupKey [] "0xab") :=
  ⟨by decide,
    c9_amended_exact_key_semantics [] "0xAB" "0xab" (by decide) 1 "0xbuy" 0⟩

/-- Claim C10: trade failures are atomic with respect to the Position
Ledger: every `buyToken` call returning `success = false` (busy, encoding
failure, rolled-back transaction, or exception) leaves the ledger
unchanged; every `_performSell` run returning `success = false` leaves the
ledger unchanged; a successful buy credits the ledger by exactly its
`addToken`; and a successful sell leaves the ledger unchanged when no
transaction was submitted (soft success) and debits it by exactly its
`removeToken` when a transaction hash is returned. -/
theorem c10_trade_failures_atomic (isT : Bool) (p : Portfolio)
    (addr : String) (amt : Int) (benv : BuyEnv) (now : Int)
    (d : List String) (senv : SellEnv) :
    ((buyToken isT p addr amt benv now).result.success = false →
      (buyToken isT p addr amt benv now).portfolio = p) ∧
    ((performSell p d addr amt senv).result.success = false →
      (performSell p d addr amt senv).portfolio = p) ∧
    ((buyToken isT p addr amt benv now).result.success = true →
      ∃ tx, (buyToken isT p addr amt benv now).result.txHash = some tx ∧
        (buyToken isT p addr amt benv now).portfolio =
          Portfolio.addToken p addr amt tx now) ∧
    ((performSell p d addr amt senv).result.success = true →
      ((performSell p d addr amt senv).result.txHash = none →
        (performSell p d addr amt senv).portfolio = p) ∧
      (∀ tx, (performSell p d addr amt senv).result.txHash = some tx →
        (performSell p d addr amt senv).portfolio =
          (Portfolio.removeToken p addr amt).1)) :=
  ⟨buyToken_fail_unchanged isT p addr amt benv now,
    performSell_fail_unchanged p d addr amt senv,
    buyToken_success_shape isT p addr amt benv now,
    performSell_success_shape p d addr amt senv⟩

/-- Witness for C10: a failed buy (insufficient funds) and a failed sell
(no holding) leave the empty ledger unchanged. -/
theorem c10_witness :
    ((buyToken false [] "0xtok" 1
        (.sendException (some "INSUFFICIENT_FUNDS") "boom") 0).result.success
      = false ∧
    (buyToken false [] "0xtok" 1
        (.sendException (some "INSUFFICIENT_FUNDS") "boom") 0).portfolio
      = []) ∧
    ((performSell [] [] "0xtok" 1 okSellEnv).result.success = false ∧
    (performSell [] [] "0xtok" 1 okSellEnv).portfolio = []) :=
  ⟨⟨rfl, (c10_trade_failures_atomic false [] "0xtok" 1
      (.sendException (some "INSUFFICIENT_FUNDS") "boom") 0 [] okSellEnv).1
      rfl⟩,
   ⟨by decide, (c10_trade_failures_atomic false [] "0xtok" 1
      (.sendException (some "INSUFFICIENT_FUNDS") "boom") 0 [] okSellEnv).2.1
      (by decide)⟩⟩

end Room
